import Mathlib

/-!
# The libuv / message-loop bridge of `common/node_bindings_mac.cc`

A shallow embedding of `atom::NodeBindingsMac`: the object's fields, the
main-thread methods (`PrepareMessageLoop`, `RunMessageLoop`, `UvRunOnce`,
`WakeupMainThread`, the destructor) and the background thread
`EmbedThreadRunner`.

* Sequential view: every method is a function on the object state that also
  returns the list of external calls it makes, in order.  What the outside
  world answers (the result of `uv_run`, of `uv_backend_timeout`, of each
  `kevent` call, the value read from `embed_closed_`) is an argument.
* Interleaved view: a step function over program counters of the two threads,
  one step per externally visible call, used for the properties that speak of
  every reachable state of the handoff protocol.

Thread-affinity assertions (`DCHECK(... CurrentlyOn(UI))`) and the v8 scopes
are outside the model.
-/

namespace NodeBindingsMac

/-! ## Machine integers and `struct timespec` -/

/-- Largest value of a 32-bit `int`. -/
def INT_MAX : Int := 2147483647

/-- Smallest value of a 32-bit `int`. -/
def INT_MIN : Int := -2147483648

/-- Value of `errno` after an interrupted system call. -/
def EINTR : Int := 4

/-- Value of `errno` after a call on a descriptor that is not open. -/
def EBADF : Int := 9

/-- Reduction of a mathematical integer to the 32-bit two's-complement `int`
that holds it modulo `2^32`. -/
def wrap32 (x : Int) : Int := (x + 2147483648) % 4294967296 - 2147483648

/-- The two fields of `struct timespec`. -/
structure timespec where
  tv_sec : Int
  tv_nsec : Int
deriving DecidableEq, Repr

/-- Lines 107-108: `spec.tv_sec = timeout / 1000;
spec.tv_nsec = (timeout % 1000) * 1000000;`.  Division and remainder are the
truncating ones of C; the product is formed in `int`. -/
def make_spec (timeout : Int) : timespec :=
  { tv_sec := Int.tdiv timeout 1000
    tv_nsec := wrap32 (Int.tmod timeout 1000 * 1000000) }

/-- Last argument of the waiting `kevent` call, line 115:
`timeout == -1 ? NULL : &spec`; `none` is the null pointer (wait without a
time limit). -/
def kevent_timeout (timeout : Int) : Option timespec :=
  if timeout == -1 then none else some (make_spec timeout)

/-- Length of a `timespec` in nanoseconds. -/
def timespec.nanos (ts : timespec) : Int := ts.tv_sec * 1000000000 + ts.tv_nsec

/-! ## External calls -/

/-- What one `kevent` wait returned: the return value `r`, the value of
`errno`, and the milliseconds the call spent blocked (which the program never
reads). -/
structure KeventResult where
  r : Int
  errno : Int
  elapsed : Nat
deriving DecidableEq, Repr

/-- Loop condition of the `do ... while` at line 116:
`r == -1 && errno == EINTR`. -/
def interrupted (k : KeventResult) : Bool := k.r == -1 && k.errno == EINTR

/-- The calls to collaborators that the methods make. -/
inductive Call where
  | uv_async_init
  | uv_sem_init (value : Nat)
  | uv_thread_create
  | uv_run
  | QuitWhenIdle
  | uv_sem_post
  | PostTask
  | uv_backend_fd
  | kevent_add (kq : Int)
  | uv_sem_wait
  | uv_backend_timeout
  | kevent_wait (kq : Int) (timeout : Option timespec)
  | WakeupMainThread
  | uv_thread_join
  | uv_sem_destroy
deriving DecidableEq, Repr

/-! ## The object -/

/-- The fields of `NodeBindingsMac` together with the two collaborators whose
state the methods change: the count of the semaphore `embed_sem_` and the host
`MessageLoop` (number of posted `UvRunOnce` tasks not yet run, number of
`QuitWhenIdle` requests received). -/
structure Bindings where
  is_browser_ : Bool
  message_loop_ : Bool
  kqueue_ : Int
  embed_closed_ : Bool
  embed_sem_ : Nat
  loop_pending : Nat
  loop_quit_requests : Nat
deriving DecidableEq, Repr

/-- Constructor, lines 27-33.  `kq` is what `kqueue()` returned and `sem0` the
content of the not yet initialised semaphore.  The value of `kq` is stored
without being inspected. -/
def construct (is_browser : Bool) (kq : Int) (sem0 : Nat) : Bindings :=
  { is_browser_ := is_browser
    message_loop_ := false
    kqueue_ := kq
    embed_closed_ := false
    embed_sem_ := sem0
    loop_pending := 0
    loop_quit_requests := 0 }

/-- Lines 42-52: `uv_async_init`, `uv_sem_init(&embed_sem_, 0)`,
`uv_thread_create`. -/
def PrepareMessageLoop (self : Bindings) : List Call × Bindings :=
  ([Call.uv_async_init, Call.uv_sem_init 0, Call.uv_thread_create],
   { self with embed_sem_ := 0 })

/-- Lines 68-82.  `r` is the result of `uv_run` and `stop_flag` the value of
`uv_loop_->stop_flag` read after it. -/
def UvRunOnce (self : Bindings) (r stop_flag : Int) : List Call × Bindings :=
  let quit : Bool := r == 0 || stop_flag != 0
  let self1 : Bindings :=
    if quit then { self with loop_quit_requests := self.loop_quit_requests + 1 } else self
  ([Call.uv_run] ++ (if quit then [Call.QuitWhenIdle] else []) ++ [Call.uv_sem_post],
   { self1 with embed_sem_ := self1.embed_sem_ + 1 })

/-- Lines 54-66: remember the message loop, then `UvRunOnce()`. -/
def RunMessageLoop (self : Bindings) (r stop_flag : Int) : List Call × Bindings :=
  UvRunOnce { self with message_loop_ := true } r stop_flag

/-- Lines 84-88.  `DCHECK(message_loop_)` fails on a null pointer (`none`);
otherwise one `UvRunOnce` task is posted. -/
def WakeupMainThread (self : Bindings) : Option (List Call × Bindings) :=
  if self.message_loop_ then
    some ([Call.PostTask], { self with loop_pending := self.loop_pending + 1 })
  else none

/-- Lines 35-40: `embed_closed_ = true; uv_thread_join(&embed_thread_);
uv_sem_destroy(&embed_sem_);`.  The calls listed are all the destructor makes;
the state is the one in which it waits for the join. -/
def destructor (self : Bindings) : List Call × Bindings :=
  ([Call.uv_thread_join, Call.uv_sem_destroy], { self with embed_closed_ := true })

/-! ## The background thread, sequentially -/

/-- How a run of the thread function ended. -/
inductive Outcome where
  /-- The `while` condition was false: the function returned. -/
  | exited
  /-- A `kevent` wait was issued and never returned. -/
  | blocked_in_kevent
  /-- The supplied environment ended at the top of an iteration. -/
  | at_loop_top
deriving DecidableEq, Repr

/-- Lines 112-116, `do { r = kevent(...); } while (r == -1 && errno == EINTR);`.
The list holds what the successive `kevent` calls return.  Result: the calls
issued and the result that ended the loop (`none` if the last call issued never
returned). -/
def wait_loop (kq : Int) (arg : Option timespec) :
    List KeventResult → List Call × Option KeventResult
  | [] => ([Call.kevent_wait kq arg], none)
  | k :: ks =>
    if interrupted k then
      ((Call.kevent_wait kq arg :: (wait_loop kq arg ks).1), (wait_loop kq arg ks).2)
    else ([Call.kevent_wait kq arg], some k)

/-- What the environment supplies to one iteration of the `while` loop: the
value read from `embed_closed_`, the result of `uv_backend_timeout`, and the
results of the `kevent` waits. -/
structure IterEnv where
  closed : Bool
  timeout : Int
  kevents : List KeventResult
deriving DecidableEq, Repr

/-- Lines 101-119, the body of the `while` loop.  The flag tells whether the
body ran to its end. -/
def loop_body (kq : Int) (timeout : Int) (ks : List KeventResult) : List Call × Bool :=
  match wait_loop kq (kevent_timeout timeout) ks with
  | (cs, none) => ([Call.uv_sem_wait, Call.uv_backend_timeout] ++ cs, false)
  | (cs, some _) =>
    ([Call.uv_sem_wait, Call.uv_backend_timeout] ++ cs ++ [Call.WakeupMainThread], true)

/-- Lines 100-120, `while (!self->embed_closed_) { ... }`. -/
def while_loop (kq : Int) : List IterEnv → List Call × Outcome
  | [] => ([], Outcome.at_loop_top)
  | e :: es =>
    if e.closed then ([], Outcome.exited)
    else
      match loop_body kq e.timeout e.kevents with
      | (cs, false) => (cs, Outcome.blocked_in_kevent)
      | (cs, true) => (cs ++ (while_loop kq es).1, (while_loop kq es).2)

/-- Lines 90-121.  `add_result` is what the registering `kevent` call of
line 98 returned; it is discarded. -/
def EmbedThreadRunner (self : Bindings) (add_result : Int) (env : List IterEnv) :
    List Call × Outcome :=
  let _ := add_result
  ([Call.uv_backend_fd, Call.kevent_add self.kqueue_] ++ (while_loop self.kqueue_ env).1,
   (while_loop self.kqueue_ env).2)

/-- The timeout arguments of the waiting `kevent` calls of a call list. -/
def wait_args : List Call → List (Option timespec)
  | [] => []
  | Call.kevent_wait _ a :: cs => a :: wait_args cs
  | _ :: cs => wait_args cs

/-! ## The two threads, interleaved -/

/-- Where the main thread is. -/
inductive MainPc where
  /-- Constructor done, `PrepareMessageLoop` not yet called. -/
  | constructed
  /-- `PrepareMessageLoop` done, `RunMessageLoop` not yet called. -/
  | prepared
  /-- Inside `UvRunOnce`, executing `uv_run`. -/
  | in_uv_run
  /-- In the host message loop, between tasks. -/
  | looping
  /-- In the destructor, `embed_closed_` set, blocked in `uv_thread_join`. -/
  | joining
  /-- Destructor done. -/
  | destroyed
deriving DecidableEq, Repr

/-- Where the background thread is: the call it will make next. -/
inductive PollerPc where
  /-- Thread not created. -/
  | not_started
  /-- About to call `uv_backend_fd`, line 97. -/
  | start
  /-- About to call the registering `kevent`, line 98. -/
  | registering
  /-- About to read `embed_closed_`, line 100. -/
  | loop_top
  /-- In `uv_sem_wait`, line 102. -/
  | sem_wait
  /-- About to call `uv_backend_timeout`, line 105. -/
  | query_timeout
  /-- In the waiting `kevent` of lines 113-116, `timeout` as computed. -/
  | waiting (timeout : Int)
  /-- About to call `WakeupMainThread`, line 119. -/
  | notifying
  /-- The thread function returned. -/
  | exited
deriving DecidableEq, Repr

/-- One state of the protocol. -/
structure State where
  obj : Bindings
  main : MainPc
  poller : PollerPc
deriving DecidableEq, Repr

/-- One step of one thread, with what the environment answered. -/
inductive Action where
  /-- Main thread: all of `PrepareMessageLoop`. -/
  | PrepareMessageLoop
  /-- Main thread: `RunMessageLoop` up to the `uv_run` call inside `UvRunOnce`. -/
  | RunMessageLoop
  /-- Main thread: the message loop takes a posted `UvRunOnce` task and runs it
  up to its `uv_run` call. -/
  | run_posted_task
  /-- Main thread: `uv_run` returns and `UvRunOnce` runs to its end. -/
  | uv_run_returns (r stop_flag : Int)
  /-- Main thread: the destructor sets `embed_closed_` and calls
  `uv_thread_join`. -/
  | destructor
  /-- Main thread: `uv_thread_join` returns; `uv_sem_destroy`. -/
  | join_returns
  /-- Poller: `uv_backend_fd(loop)`. -/
  | uv_backend_fd
  /-- Poller: the registering `kevent` returns `res`. -/
  | kevent_add (res : Int)
  /-- Poller: the `while` condition reads `embed_closed_`. -/
  | test_closed
  /-- Poller: `uv_sem_wait` returns. -/
  | uv_sem_wait
  /-- Poller: `uv_backend_timeout(loop)` returns `t`. -/
  | uv_backend_timeout (t : Int)
  /-- Poller: a waiting `kevent` returns `k`. -/
  | kevent_returns (k : KeventResult)
  /-- Poller: `WakeupMainThread()`. -/
  | WakeupMainThread
deriving DecidableEq, Repr

/-- State after the constructor. -/
def init (is_browser : Bool) (kq : Int) (sem0 : Nat) : State :=
  { obj := construct is_browser kq sem0
    main := MainPc.constructed
    poller := PollerPc.not_started }

/-- The step an action makes from a state, `none` when the thread is not at
that point of its code, is blocked there, or fails an assertion. -/
def step (s : State) : Action → Option State
  | Action.PrepareMessageLoop =>
    match s.main with
    | MainPc.constructed =>
      some { obj := (PrepareMessageLoop s.obj).2
             main := MainPc.prepared
             poller := PollerPc.start }
    | _ => none
  | Action.RunMessageLoop =>
    match s.main with
    | MainPc.prepared =>
      some { s with obj := { s.obj with message_loop_ := true }, main := MainPc.in_uv_run }
    | _ => none
  | Action.run_posted_task =>
    match s.main with
    | MainPc.looping =>
      if 0 < s.obj.loop_pending then
        some { s with obj := { s.obj with loop_pending := s.obj.loop_pending - 1 }
                      main := MainPc.in_uv_run }
      else none
    | _ => none
  | Action.uv_run_returns r stop_flag =>
    match s.main with
    | MainPc.in_uv_run =>
      some { s with obj := (UvRunOnce s.obj r stop_flag).2, main := MainPc.looping }
    | _ => none
  | Action.destructor =>
    match s.main with
    | MainPc.prepared => some { s with obj := (destructor s.obj).2, main := MainPc.joining }
    | MainPc.looping => some { s with obj := (destructor s.obj).2, main := MainPc.joining }
    | _ => none
  | Action.join_returns =>
    match s.main, s.poller with
    | MainPc.joining, PollerPc.exited => some { s with main := MainPc.destroyed }
    | _, _ => none
  | Action.uv_backend_fd =>
    match s.poller with
    | PollerPc.start => some { s with poller := PollerPc.registering }
    | _ => none
  | Action.kevent_add _ =>
    match s.poller with
    | PollerPc.registering => some { s with poller := PollerPc.loop_top }
    | _ => none
  | Action.test_closed =>
    match s.poller with
    | PollerPc.loop_top =>
      if s.obj.embed_closed_ then some { s with poller := PollerPc.exited }
      else some { s with poller := PollerPc.sem_wait }
    | _ => none
  | Action.uv_sem_wait =>
    match s.poller with
    | PollerPc.sem_wait =>
      if 0 < s.obj.embed_sem_ then
        some { s with obj := { s.obj with embed_sem_ := s.obj.embed_sem_ - 1 }
                      poller := PollerPc.query_timeout }
      else none
    | _ => none
  | Action.uv_backend_timeout t =>
    match s.poller with
    | PollerPc.query_timeout => some { s with poller := PollerPc.waiting t }
    | _ => none
  | Action.kevent_returns k =>
    match s.poller with
    | PollerPc.waiting t =>
      if interrupted k then some { s with poller := PollerPc.waiting t }
      else some { s with poller := PollerPc.notifying }
    | _ => none
  | Action.WakeupMainThread =>
    match s.poller with
    | PollerPc.notifying =>
      match WakeupMainThread s.obj with
      | some (_, o) => some { s with obj := o, poller := PollerPc.loop_top }
      | none => none
    | _ => none

/-- Execution of a list of actions, `none` as soon as one is not possible. -/
def run (s : State) : List Action → Option State
  | [] => some s
  | a :: as => (step s a).bind (fun s1 => run s1 as)

/-- Number of completed `UvRunOnce` passes (each ends with its `uv_sem_post`). -/
def posts (tr : List Action) : Nat :=
  tr.countP (fun a => match a with | Action.uv_run_returns _ _ => true | _ => false)

/-- Number of `uv_sem_wait` calls that returned. -/
def waits (tr : List Action) : Nat :=
  tr.countP (fun a => match a with | Action.uv_sem_wait => true | _ => false)

/-- Number of `WakeupMainThread` calls. -/
def wakeups (tr : List Action) : Nat :=
  tr.countP (fun a => match a with | Action.WakeupMainThread => true | _ => false)

/-- Number of posted tasks the message loop started. -/
def tasks_run (tr : List Action) : Nat :=
  tr.countP (fun a => match a with | Action.run_posted_task => true | _ => false)

/-- Number of `RunMessageLoop` calls. -/
def primes (tr : List Action) : Nat :=
  tr.countP (fun a => match a with | Action.RunMessageLoop => true | _ => false)

/-- The poller holds a grant: it has returned from more `uv_sem_wait` calls
than it has handed back with `WakeupMainThread`. -/
def holds_grant (tr : List Action) : Bool := decide (wakeups tr < waits tr)

/-- The poller's queries of the embedded loop. -/
def is_poller_query : Action → Bool
  | Action.uv_backend_fd => true
  | Action.uv_backend_timeout _ => true
  | _ => false

/-- The main thread is inside the `uv_run` of a `UvRunOnce` pass. -/
def in_bridge_pass (s : State) : Bool := decide (s.main = MainPc.in_uv_run)

/-- 1 while the poller is between its `uv_sem_wait` and its
`WakeupMainThread`, 0 elsewhere. -/
def grant_ind : PollerPc → Nat
  | PollerPc.query_timeout => 1
  | PollerPc.waiting _ => 1
  | PollerPc.notifying => 1
  | _ => 0

/-- 1 while the main thread is inside `uv_run`, 0 elsewhere. -/
def pass_ind : MainPc → Nat
  | MainPc.in_uv_run => 1
  | _ => 0

/-- The bookkeeping that every execution maintains: how the semaphore count,
the queue of posted tasks and the positions of the two threads relate to the
numbers of calls made so far. -/
structure Inv (tr : List Action) (s : State) : Prop where
  fresh : s.main = MainPc.constructed →
    s.poller = PollerPc.not_started ∧ posts tr = 0 ∧ waits tr = 0 ∧ s.obj.loop_pending = 0
  first_call : s.main = MainPc.constructed → tr = []
  sem : s.main ≠ MainPc.constructed → s.obj.embed_sem_ + waits tr = posts tr
  grant : waits tr = wakeups tr + grant_ind s.poller
  pass : primes tr + tasks_run tr = posts tr + pass_ind s.main
  queue : s.obj.loop_pending + tasks_run tr = wakeups tr
  prime_le : primes tr ≤ 1
  unprimed : s.main = MainPc.constructed ∨ s.main = MainPc.prepared → primes tr = 0
  early : s.poller = PollerPc.start → waits tr = 0
  dcheck : primes tr = 1 → s.obj.message_loop_ = true

/-- Milliseconds left until the deadline that `uv_backend_timeout` reported as
`t`, at the moment the wait with index `i` of the iteration is issued: `t` less
the time the earlier waits of the iteration spent blocked. -/
def time_left (t : Int) (ks : List KeventResult) (i : Nat) : Int :=
  t - ((ks.take i).map (fun k => (k.elapsed : Int))).sum

/-! ## Sequential properties -/

theorem wrap32_of_range (x : Int) (h1 : INT_MIN ≤ x) (h2 : x ≤ INT_MAX) : wrap32 x = x := by
  unfold INT_MIN at h1
  unfold INT_MAX at h2
  unfold wrap32
  omega

theorem wait_loop_calls (kq : Int) (arg : Option timespec) (ks : List KeventResult) :
    (wait_loop kq arg ks).1 =
      List.replicate ((ks.takeWhile interrupted).length + 1) (Call.kevent_wait kq arg) := by
  induction ks with
  | nil => rfl
  | cons k ks ih =>
    by_cases hk : interrupted k = true
    · simp [wait_loop, hk, ih, List.replicate_succ]
    · simp [wait_loop, hk]

theorem wait_loop_result (kq : Int) (arg : Option timespec) (ks : List KeventResult) :
    (wait_loop kq arg ks).2.isSome = !(ks.all interrupted) := by
  induction ks with
  | nil => rfl
  | cons k ks ih =>
    by_cases hk : interrupted k = true
    · simp [wait_loop, hk, ih]
    · simp [wait_loop, hk]

theorem wait_args_append (xs ys : List Call) : wait_args (xs ++ ys) = wait_args xs ++ wait_args ys := by
  induction xs with
  | nil => rfl
  | cons c cs ih => cases c <;> simp [wait_args, ih]

theorem wait_args_replicate (n : Nat) (kq : Int) (arg : Option timespec) :
    wait_args (List.replicate n (Call.kevent_wait kq arg)) = List.replicate n arg := by
  induction n with
  | zero => rfl
  | succ n ih => simp [List.replicate_succ, wait_args, ih]

theorem loop_body_eq (kq t : Int) (ks : List KeventResult) :
    loop_body kq t ks =
      ([Call.uv_sem_wait, Call.uv_backend_timeout]
          ++ List.replicate ((ks.takeWhile interrupted).length + 1)
               (Call.kevent_wait kq (kevent_timeout t))
          ++ (if ks.all interrupted then [] else [Call.WakeupMainThread]),
       !(ks.all interrupted)) := by
  have h1 := wait_loop_calls kq (kevent_timeout t) ks
  have h2 := wait_loop_result kq (kevent_timeout t) ks
  unfold loop_body
  rcases hw : wait_loop kq (kevent_timeout t) ks with ⟨cs, res⟩
  rw [hw] at h1 h2
  simp only at h1 h2
  cases res with
  | none =>
    have h3 : ks.all interrupted = true := by simpa using h2
    simp [h1, h3]
  | some k =>
    have h3 : ks.all interrupted = false := by simpa using h2
    simp [h1, h3]

theorem interrupted_eq_decide (k : KeventResult) :
    interrupted k = decide (k.r = -1 ∧ k.errno = EINTR) := by
  apply Bool.eq_iff_iff.mpr
  simp [interrupted]

/-- C1: every call of `UvRunOnce`, whatever `uv_run` returned and whatever
`stop_flag` holds, posts `embed_sem_` exactly once, as its last call: the count
after the call is the count before plus one (the priming pass through
`RunMessageLoop` included). -/
theorem UvRunOnce_posts_exactly_once (self : Bindings) (r stop_flag : Int) :
    (UvRunOnce self r stop_flag).2.embed_sem_ = self.embed_sem_ + 1
      ∧ (UvRunOnce self r stop_flag).1.count Call.uv_sem_post = 1
      ∧ (UvRunOnce self r stop_flag).1.getLast? = some Call.uv_sem_post
      ∧ (RunMessageLoop self r stop_flag).2.embed_sem_ = self.embed_sem_ + 1
      ∧ (RunMessageLoop self r stop_flag).1.count Call.uv_sem_post = 1 := by
  unfold RunMessageLoop UvRunOnce
  by_cases h : (r == 0 || stop_flag != 0) = true
  · simp only [h]
    refine ⟨by simp, by decide, by simp, by simp, by decide⟩
  · simp only [h]
    refine ⟨by simp, by decide, by simp, by simp, by decide⟩

/-- C2: a call of `UvRunOnce` requests `QuitWhenIdle` exactly once when the
pass is done (`uv_run` returned 0 or `stop_flag` is non-zero) and not at all
otherwise. -/
theorem UvRunOnce_quits_once_iff_done (self : Bindings) (r stop_flag : Int) :
    (UvRunOnce self r stop_flag).2.loop_quit_requests
        = self.loop_quit_requests + (if r = 0 ∨ stop_flag ≠ 0 then 1 else 0)
      ∧ (UvRunOnce self r stop_flag).1.count Call.QuitWhenIdle
        = (if r = 0 ∨ stop_flag ≠ 0 then 1 else 0) := by
  unfold UvRunOnce
  by_cases h : r = 0 ∨ stop_flag ≠ 0
  · have hb : (r == 0 || stop_flag != 0) = true := by
      rcases h with h | h <;> simp [h]
    simp only [hb, h, if_true]
    exact ⟨by simp, by decide⟩
  · have hb : (r == 0 || stop_flag != 0) = false := by
      simp only [not_or, not_not] at h
      simp [h.1, h.2]
    simp only [hb, h, if_false]
    exact ⟨by simp, by decide⟩

/-- C3 fails: with a deadline 1000 ms away and a first wait interrupted by
`EINTR` after 400 ms, the wait issued again is handed 1 s, while only 600 ms are
left until the deadline: the timeout handed to that kernel wait is longer than
the loop's next deadline. -/
theorem reissued_wait_exceeds_deadline_counterexample :
    interrupted { r := -1, errno := EINTR, elapsed := 400 } = true
      ∧ (wait_args (loop_body 5 1000
            [{ r := -1, errno := EINTR, elapsed := 400 }, { r := 0, errno := 0, elapsed := 600 }]).1).get? 1
          = some (some { tv_sec := 1, tv_nsec := 0 })
      ∧ time_left 1000
            [{ r := -1, errno := EINTR, elapsed := 400 }, { r := 0, errno := 0, elapsed := 600 }] 1
          = 600
      ∧ ¬ (timespec.nanos { tv_sec := 1, tv_nsec := 0 }
            ≤ time_left 1000
                [{ r := -1, errno := EINTR, elapsed := 400 }, { r := 0, errno := 0, elapsed := 600 }] 1
              * 1000000) := by
  decide

/-- C3 as amended: with no deadline (`uv_backend_timeout` returned -1) every
wait of the iteration gets the null pointer; for `0 <= t <= INT_MAX` the
`timespec` built is `tv_sec = t / 1000`, `tv_nsec = (t % 1000) * 1000000`, with
`0 <= tv_nsec < 10^9`, a length of exactly `t * 10^6` nanoseconds, and the
`int` product within the range of `int`.  Every waiting `kevent` call of the
iteration, the first and each one issued again after an `r = -1`,
`errno = EINTR` result, is handed this same `timespec`; for the first wait it
is not longer than the time left to the deadline. -/
theorem timeout_conversion_exact (t : Int) (h0 : 0 ≤ t) (h1 : t ≤ INT_MAX) :
    kevent_timeout (-1) = none
      ∧ kevent_timeout t = some { tv_sec := t / 1000, tv_nsec := (t % 1000) * 1000000 }
      ∧ (make_spec t).tv_sec ≤ INT_MAX
      ∧ 0 ≤ (make_spec t).tv_nsec ∧ (make_spec t).tv_nsec < 1000000000
      ∧ (make_spec t).nanos = t * 1000000
      ∧ INT_MIN ≤ Int.tmod t 1000 * 1000000 ∧ Int.tmod t 1000 * 1000000 ≤ INT_MAX
      ∧ (∀ (kq : Int) (ks : List KeventResult),
          wait_args (loop_body kq t ks).1
            = List.replicate
                ((ks.takeWhile (fun k => decide (k.r = -1 ∧ k.errno = EINTR))).length + 1)
                (some { tv_sec := t / 1000, tv_nsec := (t % 1000) * 1000000 }))
      ∧ (∀ (kq : Int) (ks : List KeventResult),
          wait_args (loop_body kq (-1) ks).1
            = List.replicate
                ((ks.takeWhile (fun k => decide (k.r = -1 ∧ k.errno = EINTR))).length + 1)
                none)
      ∧ (∀ (ks : List KeventResult),
          (make_spec t).nanos ≤ time_left t ks 0 * 1000000) := by
  have hd : Int.tdiv t 1000 = t / 1000 := Int.tdiv_eq_ediv h0 (by decide)
  have hm : Int.tmod t 1000 = t % 1000 := Int.tmod_eq_emod h0 (by decide)
  have hlo : INT_MIN ≤ t % 1000 * 1000000 := by unfold INT_MIN; omega
  have hhi : t % 1000 * 1000000 ≤ INT_MAX := by unfold INT_MAX; omega
  have hw : wrap32 (t % 1000 * 1000000) = t % 1000 * 1000000 := wrap32_of_range _ hlo hhi
  have hs : make_spec t = { tv_sec := t / 1000, tv_nsec := (t % 1000) * 1000000 } := by
    simp [make_spec, hd, hm, hw]
  have hne : (t == -1) = false := by
    have : t ≠ -1 := by omega
    simpa using this
  have hk : kevent_timeout t = some { tv_sec := t / 1000, tv_nsec := (t % 1000) * 1000000 } := by
    simp [kevent_timeout, hne, hs]
  have hfun : interrupted = fun k => decide (k.r = -1 ∧ k.errno = EINTR) :=
    funext interrupted_eq_decide
  have hall : ∀ (kq x : Int) (ks : List KeventResult),
      wait_args (loop_body kq x ks).1
        = List.replicate ((ks.takeWhile interrupted).length + 1) (kevent_timeout x) := by
    intro kq x ks
    rw [loop_body_eq]
    by_cases h : ks.all interrupted = true
    · simp [h, wait_args, wait_args_append, wait_args_replicate, List.replicate_succ]
    · simp [h, wait_args, wait_args_append, wait_args_replicate, List.replicate_succ]
  rw [hfun] at hall
  have hnanos : (make_spec t).nanos = t * 1000000 := by
    rw [hs]; show t / 1000 * 1000000000 + t % 1000 * 1000000 = t * 1000000; omega
  refine ⟨rfl, hk, ?_, ?_, ?_, hnanos, ?_, ?_, ?_, ?_, ?_⟩
  · rw [hs]; show t / 1000 ≤ INT_MAX; unfold INT_MAX at h1 ⊢; omega
  · rw [hs]; show 0 ≤ t % 1000 * 1000000; omega
  · rw [hs]; show t % 1000 * 1000000 < 1000000000; omega
  · rw [hm]; exact hlo
  · rw [hm]; exact hhi
  · intro kq ks
    rw [hall kq t ks, hk]
  · intro kq ks
    rw [hall kq (-1) ks]
    rfl
  · intro ks
    rw [hnanos]
    simp [time_left]

/-- Witness of C3 amended at a timeout of 1500 ms, with one interruption
followed by a ready event: both waits are handed 1.5 s. -/
theorem timeout_conversion_exact_witness :
    (0 : Int) ≤ 1500 ∧ (1500 : Int) ≤ INT_MAX
      ∧ kevent_timeout 1500 = some { tv_sec := 1, tv_nsec := 500000000 }
      ∧ (make_spec 1500).nanos = 1500 * 1000000
      ∧ wait_args (loop_body 5 1500
          [{ r := -1, errno := EINTR, elapsed := 200 }, { r := 1, errno := 0, elapsed := 30 }]).1
        = List.replicate
            ((List.takeWhile (fun (k : KeventResult) => decide (k.r = -1 ∧ k.errno = EINTR))
                [{ r := -1, errno := EINTR, elapsed := 200 },
                 { r := 1, errno := 0, elapsed := 30 }]).length + 1)
            (some { tv_sec := (1500 : Int) / 1000, tv_nsec := ((1500 : Int) % 1000) * 1000000 }) :=
  ⟨by decide, by decide, by decide,
   (timeout_conversion_exact 1500 (by decide) (by decide)).2.2.2.2.2.1,
   (timeout_conversion_exact 1500 (by decide) (by decide)).2.2.2.2.2.2.2.2.1 5
     [{ r := -1, errno := EINTR, elapsed := 200 }, { r := 1, errno := 0, elapsed := 30 }]⟩

/-- C7 fails: with `kqueue()` = -1 and the registering `kevent` = -1 the
object is built all the same and the thread enters its loop: it waits on the
semaphore, issues a waiting `kevent` on descriptor -1 (which answers `EBADF`)
and posts a wakeup. -/
theorem setup_failure_not_fatal_counterexample :
    (construct true (-1) 0).kqueue_ = -1
      ∧ EmbedThreadRunner (construct true (-1) 0) (-1)
          [{ closed := false, timeout := -1, kevents := [{ r := -1, errno := EBADF, elapsed := 0 }] }]
        = ([Call.uv_backend_fd, Call.kevent_add (-1), Call.uv_sem_wait, Call.uv_backend_timeout,
            Call.kevent_wait (-1) none, Call.WakeupMainThread], Outcome.at_loop_top)
      ∧ (run (init true (-1) 0)
          [Action.PrepareMessageLoop, Action.RunMessageLoop, Action.uv_run_returns 1 0,
           Action.uv_backend_fd, Action.kevent_add (-1), Action.test_closed, Action.uv_sem_wait,
           Action.uv_backend_timeout (-1),
           Action.kevent_returns { r := -1, errno := EBADF, elapsed := 0 },
           Action.WakeupMainThread]).isSome = true := by
  decide

/-- C7 as amended: setup results are not inspected.  The constructor stores
whatever `kqueue()` returned and leaves `embed_closed_` false, the result of the
registering `kevent` call does not influence the thread, and for every value of
either the thread goes on to wait on the semaphore, query the timeout and issue
a waiting `kevent` on the stored descriptor. -/
theorem setup_results_ignored (is_browser : Bool) (kq : Int) (sem0 : Nat) (add_result : Int)
    (t : Int) (ks : List KeventResult) (es : List IterEnv) :
    (construct is_browser kq sem0).kqueue_ = kq
      ∧ (construct is_browser kq sem0).embed_closed_ = false
      ∧ (∀ env, EmbedThreadRunner (construct is_browser kq sem0) add_result env
            = EmbedThreadRunner (construct is_browser kq sem0) 0 env)
      ∧ (step (init is_browser kq sem0) Action.PrepareMessageLoop).map State.poller
            = some PollerPc.start
      ∧ (EmbedThreadRunner (construct is_browser kq sem0) add_result
            ({ closed := false, timeout := t, kevents := ks } :: es)).1.take 5
          = [Call.uv_backend_fd, Call.kevent_add kq, Call.uv_sem_wait, Call.uv_backend_timeout,
             Call.kevent_wait kq (kevent_timeout t)] := by
  refine ⟨rfl, rfl, fun _ => rfl, rfl, ?_⟩
  simp only [EmbedThreadRunner, while_loop, construct, loop_body_eq]
  by_cases h : ks.all interrupted = true
  · simp [h, List.replicate_succ]
  · simp [h, List.replicate_succ]

/-- C8 fails: when the thread reads `embed_closed_` as true at the top of an
iteration it returns without any call, so the number of semaphore releases on
the exit path is 0, not 1; in the interleaved model the semaphore count is the
same before and after the exit step. -/
theorem exit_posts_no_release_counterexample :
    while_loop 5 [{ closed := true, timeout := 100, kevents := [⟨1, 0, 0⟩] }]
        = ([], Outcome.exited)
      ∧ (while_loop 5 [{ closed := true, timeout := 100, kevents := [⟨1, 0, 0⟩] }]).1.count
            Call.uv_sem_post ≠ 1
      ∧ (step { obj := { (construct true 5 0) with embed_closed_ := true },
                main := MainPc.joining, poller := PollerPc.loop_top } Action.test_closed).map
            (fun s => s.obj.embed_sem_) = some 0 := by
  decide

/-- C8 as amended: when the thread reads `embed_closed_` as true at the top of
an iteration it returns at once, making no call at all: no semaphore release,
no `kevent` wait, no wakeup.  In the interleaved model the exit step changes
only the thread's own position, and the exited thread has no further step. -/
theorem exit_makes_no_call (kq : Int) (t : Int) (ks : List KeventResult) (es : List IterEnv)
    (o : Bindings) (m : MainPc) :
    while_loop kq ({ closed := true, timeout := t, kevents := ks } :: es) = ([], Outcome.exited)
      ∧ step { obj := { o with embed_closed_ := true }, main := m, poller := PollerPc.loop_top }
            Action.test_closed
          = some { obj := { o with embed_closed_ := true }, main := m, poller := PollerPc.exited }
      ∧ (∀ (b : Bindings),
          step { obj := b, main := m, poller := PollerPc.exited } Action.uv_backend_fd = none
          ∧ (∀ res, step { obj := b, main := m, poller := PollerPc.exited }
                (Action.kevent_add res) = none)
          ∧ step { obj := b, main := m, poller := PollerPc.exited } Action.test_closed = none
          ∧ step { obj := b, main := m, poller := PollerPc.exited } Action.uv_sem_wait = none
          ∧ (∀ x, step { obj := b, main := m, poller := PollerPc.exited }
                (Action.uv_backend_timeout x) = none)
          ∧ (∀ k, step { obj := b, main := m, poller := PollerPc.exited }
                (Action.kevent_returns k) = none)
          ∧ step { obj := b, main := m, poller := PollerPc.exited } Action.WakeupMainThread
              = none) := by
  refine ⟨rfl, rfl, fun b => ⟨rfl, fun _ => rfl, rfl, rfl, fun _ => rfl, fun _ => rfl, rfl⟩⟩

/-- C9: in one iteration, for every finite list of `kevent` results, the wait
is issued once more after each leading result with `r = -1` and
`errno = EINTR` (and after no other result), and `WakeupMainThread` is called
exactly once, as the last call, after the first result that is not such an
interruption: a ready event, a timeout (`r = 0`), or another error; while all
results are interruptions it is not called. -/
theorem interrupted_wait_retried (kq t : Int) (ks : List KeventResult) :
    loop_body kq t ks =
      ([Call.uv_sem_wait, Call.uv_backend_timeout]
          ++ List.replicate
               ((ks.takeWhile (fun k => decide (k.r = -1 ∧ k.errno = EINTR))).length + 1)
               (Call.kevent_wait kq (kevent_timeout t))
          ++ (if ks.all (fun k => decide (k.r = -1 ∧ k.errno = EINTR)) then []
              else [Call.WakeupMainThread]),
       !(ks.all (fun k => decide (k.r = -1 ∧ k.errno = EINTR))))
      ∧ (loop_body kq t ks).1.count Call.WakeupMainThread
          = (if ks.all (fun k => decide (k.r = -1 ∧ k.errno = EINTR)) then 0 else 1)
      ∧ EINTR = 4
      ∧ loop_body 5 (-1) [{ r := -1, errno := 4, elapsed := 10 }, { r := 1, errno := 0, elapsed := 5 }]
          = ([Call.uv_sem_wait, Call.uv_backend_timeout, Call.kevent_wait 5 none,
              Call.kevent_wait 5 none, Call.WakeupMainThread], true)
      ∧ loop_body 5 (-1) [{ r := -1, errno := 9, elapsed := 0 }, { r := 1, errno := 0, elapsed := 5 }]
          = ([Call.uv_sem_wait, Call.uv_backend_timeout, Call.kevent_wait 5 none,
              Call.WakeupMainThread], true)
      ∧ loop_body 5 (-1) [{ r := 0, errno := 4, elapsed := 7 }, { r := 1, errno := 0, elapsed := 5 }]
          = ([Call.uv_sem_wait, Call.uv_backend_timeout, Call.kevent_wait 5 none,
              Call.WakeupMainThread], true)
      ∧ loop_body 5 (-1) [{ r := -1, errno := 4, elapsed := 10 }]
          = ([Call.uv_sem_wait, Call.uv_backend_timeout, Call.kevent_wait 5 none,
              Call.kevent_wait 5 none], false) := by
  have hfun : interrupted = fun k => decide (k.r = -1 ∧ k.errno = EINTR) :=
    funext interrupted_eq_decide
  have hb := loop_body_eq kq t ks
  rw [hfun] at hb
  refine ⟨hb, ?_, rfl, by decide, by decide, by decide, by decide⟩
  rw [hb]
  by_cases h : ks.all (fun k => decide (k.r = -1 ∧ k.errno = EINTR)) = true
  · simp only [h, if_true]
    simp [List.count_replicate]
  · simp only [h]
    simp [List.count_replicate]

/-- C10 fails: with a timeout of 1000 ms and a first wait interrupted after
400 ms, the retried `kevent` is handed the full 1000 ms again, not the
remaining 600 ms, and the two waits together may last 1400 ms. -/
theorem retry_uses_full_timeout_counterexample :
    interrupted { r := -1, errno := EINTR, elapsed := 400 } = true
      ∧ wait_args (loop_body 5 1000
          [{ r := -1, errno := EINTR, elapsed := 400 }, { r := 0, errno := 0, elapsed := 1000 }]).1
        = [some { tv_sec := 1, tv_nsec := 0 }, some { tv_sec := 1, tv_nsec := 0 }]
      ∧ kevent_timeout (1000 - 400) = some { tv_sec := 0, tv_nsec := 600000000 }
      ∧ (wait_args (loop_body 5 1000
          [{ r := -1, errno := EINTR, elapsed := 400 }, { r := 0, errno := 0, elapsed := 1000 }]).1).get? 1
        ≠ some (kevent_timeout (1000 - 400))
      ∧ 1000 < (400 : Nat) + 1000 := by
  decide

/-- C10 as amended: every waiting `kevent` call of an iteration, the retried
ones included, is handed the same argument, the one computed from
`uv_backend_timeout` before the first wait (the null pointer for -1, else the
`timespec` of the full timeout); the time already waited does not enter it. -/
theorem retry_uses_same_timeout (kq t : Int) (ks : List KeventResult) :
    wait_args (loop_body kq t ks).1
      = List.replicate ((ks.takeWhile interrupted).length + 1) (kevent_timeout t) := by
  rw [loop_body_eq]
  by_cases h : ks.all interrupted = true
  · simp [h, wait_args, wait_args_append, wait_args_replicate, List.replicate_succ]
  · simp [h, wait_args, wait_args_append, wait_args_replicate, List.replicate_succ]

/-! ## The interleaved protocol -/

theorem run_snoc (s : State) (tr : List Action) (a : Action) :
    run s (tr ++ [a]) = (run s tr).bind (fun s1 => step s1 a) := by
  induction tr generalizing s with
  | nil => simp [run]
  | cons b bs ih =>
    simp only [List.cons_append, run]
    cases step s b with
    | none => rfl
    | some s1 => simpa using ih s1

theorem posts_snoc (tr : List Action) (a : Action) :
    posts (tr ++ [a]) = posts tr + (match a with | Action.uv_run_returns _ _ => 1 | _ => 0) := by
  cases a <;> simp [posts, List.countP_append, List.countP_cons]

theorem waits_snoc (tr : List Action) (a : Action) :
    waits (tr ++ [a]) = waits tr + (match a with | Action.uv_sem_wait => 1 | _ => 0) := by
  cases a <;> simp [waits, List.countP_append, List.countP_cons]

theorem wakeups_snoc (tr : List Action) (a : Action) :
    wakeups (tr ++ [a]) = wakeups tr + (match a with | Action.WakeupMainThread => 1 | _ => 0) := by
  cases a <;> simp [wakeups, List.countP_append, List.countP_cons]

theorem tasks_run_snoc (tr : List Action) (a : Action) :
    tasks_run (tr ++ [a]) = tasks_run tr + (match a with | Action.run_posted_task => 1 | _ => 0) := by
  cases a <;> simp [tasks_run, List.countP_append, List.countP_cons]

theorem primes_snoc (tr : List Action) (a : Action) :
    primes (tr ++ [a]) = primes tr + (match a with | Action.RunMessageLoop => 1 | _ => 0) := by
  cases a <;> simp [primes, List.countP_append, List.countP_cons]

theorem inv_init (is_browser : Bool) (kq : Int) (sem0 : Nat) :
    Inv [] (init is_browser kq sem0) := by
  constructor <;> simp [init, construct, posts, waits, wakeups, tasks_run, primes, grant_ind, pass_ind]

theorem UvRunOnce_sem (o : Bindings) (r sf : Int) :
    (UvRunOnce o r sf).2.embed_sem_ = o.embed_sem_ + 1 := by
  by_cases h : (r == 0 || sf != 0) = true <;> simp [UvRunOnce, h]

theorem UvRunOnce_pending (o : Bindings) (r sf : Int) :
    (UvRunOnce o r sf).2.loop_pending = o.loop_pending := by
  by_cases h : (r == 0 || sf != 0) = true <;> simp [UvRunOnce, h]

theorem UvRunOnce_message_loop (o : Bindings) (r sf : Int) :
    (UvRunOnce o r sf).2.message_loop_ = o.message_loop_ := by
  by_cases h : (r == 0 || sf != 0) = true <;> simp [UvRunOnce, h]

@[simp] theorem grant_ind_not_started : grant_ind PollerPc.not_started = 0 := rfl
@[simp] theorem grant_ind_start : grant_ind PollerPc.start = 0 := rfl
@[simp] theorem grant_ind_registering : grant_ind PollerPc.registering = 0 := rfl
@[simp] theorem grant_ind_loop_top : grant_ind PollerPc.loop_top = 0 := rfl
@[simp] theorem grant_ind_sem_wait : grant_ind PollerPc.sem_wait = 0 := rfl
@[simp] theorem grant_ind_query_timeout : grant_ind PollerPc.query_timeout = 1 := rfl
@[simp] theorem grant_ind_waiting (t : Int) : grant_ind (PollerPc.waiting t) = 1 := rfl
@[simp] theorem grant_ind_notifying : grant_ind PollerPc.notifying = 1 := rfl
@[simp] theorem grant_ind_exited : grant_ind PollerPc.exited = 0 := rfl
@[simp] theorem pass_ind_constructed : pass_ind MainPc.constructed = 0 := rfl
@[simp] theorem pass_ind_prepared : pass_ind MainPc.prepared = 0 := rfl
@[simp] theorem pass_ind_in_uv_run : pass_ind MainPc.in_uv_run = 1 := rfl
@[simp] theorem pass_ind_looping : pass_ind MainPc.looping = 0 := rfl
@[simp] theorem pass_ind_joining : pass_ind MainPc.joining = 0 := rfl
@[simp] theorem pass_ind_destroyed : pass_ind MainPc.destroyed = 0 := rfl

set_option linter.unusedTactic false in
set_option linter.unreachableTactic false in
set_option linter.unnecessarySeqFocus false in
set_option maxHeartbeats 1000000 in
theorem inv_step_main {tr : List Action} {obj : Bindings} {m : MainPc} {p : PollerPc}
    {s1 : State} {a : Action} (h : Inv tr { obj := obj, main := m, poller := p })
    (hs : step { obj := obj, main := m, poller := p } a = some s1)
    (ha : a = Action.PrepareMessageLoop ∨ a = Action.RunMessageLoop ∨ a = Action.run_posted_task
      ∨ (∃ r sf, a = Action.uv_run_returns r sf) ∨ a = Action.destructor
      ∨ a = Action.join_returns) :
    Inv (tr ++ [a]) s1 := by
  obtain ⟨h1, h0, h2, h3, h4, h5, h6, h7, h8, h9⟩ := h
  simp only at h1 h0 h2 h3 h4 h5 h6 h7 h8 h9
  rcases ha with rfl | rfl | rfl | ⟨r, sf, rfl⟩ | rfl | rfl
  · cases m <;> simp [step] at hs
    subst hs
    obtain rfl := h0 rfl
    constructor <;> intros <;>
      simp_all [posts, waits, wakeups, tasks_run, primes, PrepareMessageLoop]
  · cases m <;> simp [step] at hs
    subst hs
    constructor <;> intros <;>
      simp_all [posts_snoc, waits_snoc, wakeups_snoc, tasks_run_snoc, primes_snoc,
        UvRunOnce_sem, UvRunOnce_pending, UvRunOnce_message_loop, PrepareMessageLoop,
        destructor] <;>
      omega
  · cases m <;> simp [step] at hs
    obtain ⟨hc, rfl⟩ := hs
    constructor <;> intros <;>
      simp_all [posts_snoc, waits_snoc, wakeups_snoc, tasks_run_snoc, primes_snoc,
        UvRunOnce_sem, UvRunOnce_pending, UvRunOnce_message_loop, PrepareMessageLoop,
        destructor] <;>
      omega
  · cases m <;> simp [step] at hs
    subst hs
    constructor <;> intros <;>
      simp_all [posts_snoc, waits_snoc, wakeups_snoc, tasks_run_snoc, primes_snoc,
        UvRunOnce_sem, UvRunOnce_pending, UvRunOnce_message_loop, PrepareMessageLoop,
        destructor] <;>
      omega
  · cases m <;> simp [step] at hs <;> subst hs <;>
    constructor <;> intros <;>
      simp_all [posts_snoc, waits_snoc, wakeups_snoc, tasks_run_snoc, primes_snoc,
        UvRunOnce_sem, UvRunOnce_pending, UvRunOnce_message_loop, PrepareMessageLoop,
        destructor] <;>
      omega
  · cases m <;> cases p <;> simp [step] at hs
    subst hs
    constructor <;> intros <;>
      simp_all [posts_snoc, waits_snoc, wakeups_snoc, tasks_run_snoc, primes_snoc,
        UvRunOnce_sem, UvRunOnce_pending, UvRunOnce_message_loop, PrepareMessageLoop,
        destructor] <;>
      omega

set_option linter.unusedTactic false in
set_option linter.unreachableTactic false in
set_option linter.unnecessarySeqFocus false in
set_option maxHeartbeats 1000000 in
theorem inv_step_poller {tr : List Action} {obj : Bindings} {m : MainPc} {p : PollerPc}
    {s1 : State} {a : Action} (h : Inv tr { obj := obj, main := m, poller := p })
    (hs : step { obj := obj, main := m, poller := p } a = some s1)
    (ha : a = Action.uv_backend_fd ∨ (∃ res, a = Action.kevent_add res) ∨ a = Action.test_closed
      ∨ a = Action.uv_sem_wait ∨ (∃ t, a = Action.uv_backend_timeout t)
      ∨ (∃ k, a = Action.kevent_returns k) ∨ a = Action.WakeupMainThread) :
    Inv (tr ++ [a]) s1 := by
  obtain ⟨h1, h0, h2, h3, h4, h5, h6, h7, h8, h9⟩ := h
  simp only at h1 h0 h2 h3 h4 h5 h6 h7 h8 h9
  rcases ha with rfl | ⟨res, rfl⟩ | rfl | rfl | ⟨t, rfl⟩ | ⟨k, rfl⟩ | rfl
  · cases p <;> simp [step] at hs
    subst hs
    constructor <;> intros <;>
      simp_all [posts_snoc, waits_snoc, wakeups_snoc, tasks_run_snoc, primes_snoc] <;>
      first | omega | (apply h9; omega)
  · cases p <;> simp [step] at hs
    subst hs
    constructor <;> intros <;>
      simp_all [posts_snoc, waits_snoc, wakeups_snoc, tasks_run_snoc, primes_snoc] <;>
      first | omega | (apply h9; omega)
  · cases p <;> simp only [step] at hs <;> (try simp at hs)
    split at hs <;> simp at hs <;> subst hs <;>
    constructor <;> intros <;>
      simp_all [posts_snoc, waits_snoc, wakeups_snoc, tasks_run_snoc, primes_snoc] <;>
      first | omega | (apply h9; omega)
  · cases p <;> simp [step] at hs
    obtain ⟨hc, rfl⟩ := hs
    constructor <;> intros <;>
      simp_all [posts_snoc, waits_snoc, wakeups_snoc, tasks_run_snoc, primes_snoc] <;>
      first | omega | (apply h9; omega)
  · cases p <;> simp [step] at hs
    subst hs
    constructor <;> intros <;>
      simp_all [posts_snoc, waits_snoc, wakeups_snoc, tasks_run_snoc, primes_snoc] <;>
      first | omega | (apply h9; omega)
  · cases p <;> simp only [step] at hs <;> (try simp at hs)
    split at hs <;> simp at hs <;> subst hs <;>
    constructor <;> intros <;>
      simp_all [posts_snoc, waits_snoc, wakeups_snoc, tasks_run_snoc, primes_snoc] <;>
      first | omega | (apply h9; omega)
  · cases p <;> simp [step, WakeupMainThread] at hs
    by_cases hml : obj.message_loop_ = true
    · simp [hml] at hs
      subst hs
      constructor <;> intros <;>
      simp_all [posts_snoc, waits_snoc, wakeups_snoc, tasks_run_snoc, primes_snoc] <;>
      first | omega | (apply h9; omega)
    · simp [hml] at hs

theorem inv_step {tr : List Action} {s s1 : State} {a : Action}
    (h : Inv tr s) (hs : step s a = some s1) : Inv (tr ++ [a]) s1 := by
  obtain ⟨obj, m, p⟩ := s
  cases a
  case PrepareMessageLoop => exact inv_step_main h hs (by simp)
  case RunMessageLoop => exact inv_step_main h hs (by simp)
  case run_posted_task => exact inv_step_main h hs (by simp)
  case uv_run_returns => exact inv_step_main h hs (by simp)
  case destructor => exact inv_step_main h hs (by simp)
  case join_returns => exact inv_step_main h hs (by simp)
  case uv_backend_fd => exact inv_step_poller h hs (by simp)
  case kevent_add => exact inv_step_poller h hs (by simp)
  case test_closed => exact inv_step_poller h hs (by simp)
  case uv_sem_wait => exact inv_step_poller h hs (by simp)
  case uv_backend_timeout => exact inv_step_poller h hs (by simp)
  case kevent_returns => exact inv_step_poller h hs (by simp)
  case WakeupMainThread => exact inv_step_poller h hs (by simp)

theorem inv_run (is_browser : Bool) (kq : Int) (sem0 : Nat) (tr : List Action) (s : State)
    (h : run (init is_browser kq sem0) tr = some s) : Inv tr s := by
  induction tr using List.reverseRecOn generalizing s with
  | nil =>
    simp [run] at h
    subst h
    exact inv_init is_browser kq sem0
  | append_singleton tr a ih =>
    rw [run_snoc] at h
    cases hr : run (init is_browser kq sem0) tr with
    | none => simp [hr] at h
    | some s0 =>
      rw [hr] at h
      exact inv_step (ih s0 hr) h

/-- The two views agree on the priming pass: `RunMessageLoop` followed by the
return of `uv_run` leaves the object as the sequential `RunMessageLoop` does. -/
theorem run_priming_pass (o : Bindings) (p : PollerPc) (r stop_flag : Int) :
    run { obj := o, main := MainPc.prepared, poller := p }
        [Action.RunMessageLoop, Action.uv_run_returns r stop_flag]
      = some { obj := (RunMessageLoop o r stop_flag).2, main := MainPc.looping, poller := p } :=
  rfl

/-- The two views agree on a posted task: taking it and returning from `uv_run`
leaves the object as `UvRunOnce` does on the object with the task removed. -/
theorem run_posted_pass (o : Bindings) (p : PollerPc) (r stop_flag : Int)
    (h : 0 < o.loop_pending) :
    run { obj := o, main := MainPc.looping, poller := p }
        [Action.run_posted_task, Action.uv_run_returns r stop_flag]
      = some { obj := (UvRunOnce { o with loop_pending := o.loop_pending - 1 } r stop_flag).2,
               main := MainPc.looping, poller := p } := by
  simp [run, step, h]

/-- The two views agree on the wait loop: a `kevent` result keeps the poller
waiting with the same timeout exactly when `interrupted` holds, the condition
under which `wait_loop` issues the call again. -/
theorem step_kevent_returns (o : Bindings) (m : MainPc) (t : Int) (k : KeventResult) :
    step { obj := o, main := m, poller := PollerPc.waiting t } (Action.kevent_returns k)
      = some { obj := o, main := m,
               poller := if interrupted k then PollerPc.waiting t else PollerPc.notifying } := by
  by_cases h : interrupted k = true <;> simp [step, h]

/-- The assertion `DCHECK(message_loop_)` of `WakeupMainThread` holds whenever
the poller is about to call it. -/
theorem WakeupMainThread_dcheck_holds (is_browser : Bool) (kq : Int) (sem0 : Nat)
    (tr : List Action) (s : State) (h : run (init is_browser kq sem0) tr = some s)
    (hp : s.poller = PollerPc.notifying) : (WakeupMainThread s.obj).isSome = true := by
  have hi := inv_run is_browser kq sem0 tr s h
  obtain ⟨h1, h0, h2, h3, h4, h5, h6, h7, h8, h9⟩ := hi
  rw [hp] at h3
  have hm : s.main ≠ MainPc.constructed := by
    intro hc
    have := (h1 hc).1
    rw [hp] at this
    cases this
  have h2 := h2 hm
  have hpi : pass_ind s.main ≤ 1 := by cases s.main <;> simp
  simp only [grant_ind_notifying] at h3
  have hml : s.obj.message_loop_ = true := h9 (by omega)
  simp [WakeupMainThread, hml]

/-- C4 fails: right after `PrepareMessageLoop` and `RunMessageLoop` the main
thread is inside the `uv_run` of the priming pass and the poller, which has not
yet called `uv_sem_wait`, can make its `uv_backend_fd` query of the loop. -/
theorem poller_query_without_grant_counterexample :
    run (init true 5 0) [Action.PrepareMessageLoop, Action.RunMessageLoop]
        = some { obj := { construct true 5 0 with message_loop_ := true },
                 main := MainPc.in_uv_run, poller := PollerPc.start }
      ∧ is_poller_query Action.uv_backend_fd = true
      ∧ (step { obj := { construct true 5 0 with message_loop_ := true },
                main := MainPc.in_uv_run, poller := PollerPc.start } Action.uv_backend_fd).isSome
          = true
      ∧ holds_grant [Action.PrepareMessageLoop, Action.RunMessageLoop] = false
      ∧ in_bridge_pass { obj := { construct true 5 0 with message_loop_ := true },
                         main := MainPc.in_uv_run, poller := PollerPc.start } = true := by
  decide

/-- C4 as amended: in every reachable state, every `uv_backend_timeout` query
of the poller is made while it holds a grant obtained from `uv_sem_wait` and
while the main thread is not inside `uv_run`; conversely, while the main
thread is inside `uv_run` the poller holds no grant.  The `uv_backend_fd`
query is made at thread start, before any `uv_sem_wait`. -/
theorem timeout_query_under_grant (is_browser : Bool) (kq : Int) (sem0 : Nat)
    (tr : List Action) (s : State) (h : run (init is_browser kq sem0) tr = some s) :
    (∀ t s1, step s (Action.uv_backend_timeout t) = some s1 →
        holds_grant tr = true ∧ in_bridge_pass s = false)
      ∧ (in_bridge_pass s = true → holds_grant tr = false)
      ∧ (∀ s1, step s Action.uv_backend_fd = some s1 → waits tr = 0) := by
  have hi := inv_run is_browser kq sem0 tr s h
  obtain ⟨h1, h0, h2, h3, h4, h5, h6, h7, h8, h9⟩ := hi
  have key : s.main ≠ MainPc.constructed →
      s.obj.embed_sem_ + s.obj.loop_pending + grant_ind s.poller + pass_ind s.main ≤ 1 := by
    intro hm
    have := h2 hm
    omega
  refine ⟨?_, ?_, ?_⟩
  · intro t s1 hs
    have hp : s.poller = PollerPc.query_timeout := by
      cases hq : s.poller <;> simp [step, hq] at hs
      rfl
    rw [hp] at h3
    simp only [grant_ind_query_timeout] at h3
    have hm : s.main ≠ MainPc.constructed := by
      intro hc
      have := (h1 hc).1
      rw [hp] at this
      cases this
    have hk := key hm
    rw [hp] at hk
    simp only [grant_ind_query_timeout] at hk
    refine ⟨by simp [holds_grant]; omega, ?_⟩
    cases hmm : s.main <;> simp [in_bridge_pass, hmm]
    rw [hmm] at hk
    simp at hk
  · intro hb
    have hmm : s.main = MainPc.in_uv_run := by simpa [in_bridge_pass] using hb
    have hk := key (by rw [hmm]; simp)
    rw [hmm] at hk
    simp only [pass_ind_in_uv_run] at hk
    simp [holds_grant]
    omega
  · intro s1 hs
    have hp : s.poller = PollerPc.start := by
      cases hq : s.poller <;> simp [step, hq] at hs
      rfl
    exact h8 hp

/-- Witness of C4 amended: after the priming pass has posted and the poller has
taken the grant, its `uv_backend_timeout` query is enabled and made outside
any `uv_run`. -/
theorem timeout_query_under_grant_witness :
    run (init true 5 0)
        [Action.PrepareMessageLoop, Action.RunMessageLoop, Action.uv_run_returns 1 0,
         Action.uv_backend_fd, Action.kevent_add 0, Action.test_closed, Action.uv_sem_wait]
      = some { obj := { construct true 5 0 with message_loop_ := true },
               main := MainPc.looping, poller := PollerPc.query_timeout }
      ∧ holds_grant
          [Action.PrepareMessageLoop, Action.RunMessageLoop, Action.uv_run_returns 1 0,
           Action.uv_backend_fd, Action.kevent_add 0, Action.test_closed, Action.uv_sem_wait]
          = true
      ∧ in_bridge_pass { obj := { construct true 5 0 with message_loop_ := true },
                         main := MainPc.looping, poller := PollerPc.query_timeout } = false :=
  ⟨by decide,
   (timeout_query_under_grant true 5 0
      [Action.PrepareMessageLoop, Action.RunMessageLoop, Action.uv_run_returns 1 0,
       Action.uv_backend_fd, Action.kevent_add 0, Action.test_closed, Action.uv_sem_wait]
      { obj := { construct true 5 0 with message_loop_ := true },
        main := MainPc.looping, poller := PollerPc.query_timeout }
      (by decide)).1 50
      { obj := { construct true 5 0 with message_loop_ := true },
        main := MainPc.looping, poller := PollerPc.waiting 50 } (by decide)⟩

/-- C5 fails on the code: after a priming pass, one poller cycle and its wakeup,
the poller is back in `uv_sem_wait` with the semaphore at 0; the destructor then
sets `embed_closed_` and blocks in `uv_thread_join`, and no step of either
thread is possible any more.  Second run: the destructor starts while the
poller is in a `kevent` wait without time limit; the only step left is a return
of that `kevent`, which nothing in the destructor brings about. -/
theorem teardown_deadlock :
    run (init true 5 0)
        [Action.PrepareMessageLoop, Action.RunMessageLoop, Action.uv_run_returns 0 0,
         Action.uv_backend_fd, Action.kevent_add 0, Action.test_closed, Action.uv_sem_wait,
         Action.uv_backend_timeout (-1), Action.kevent_returns { r := 1, errno := 0, elapsed := 0 },
         Action.WakeupMainThread, Action.test_closed, Action.destructor]
      = some { obj := { is_browser_ := true, message_loop_ := true, kqueue_ := 5,
                        embed_closed_ := true, embed_sem_ := 0, loop_pending := 1,
                        loop_quit_requests := 1 },
               main := MainPc.joining, poller := PollerPc.sem_wait }
      ∧ (∀ a : Action,
          step { obj := { is_browser_ := true, message_loop_ := true, kqueue_ := 5,
                          embed_closed_ := true, embed_sem_ := 0, loop_pending := 1,
                          loop_quit_requests := 1 },
                 main := MainPc.joining, poller := PollerPc.sem_wait } a = none)
      ∧ run (init true 5 0)
        [Action.PrepareMessageLoop, Action.RunMessageLoop, Action.uv_run_returns 1 0,
         Action.uv_backend_fd, Action.kevent_add 0, Action.test_closed, Action.uv_sem_wait,
         Action.uv_backend_timeout (-1), Action.destructor]
      = some { obj := { is_browser_ := true, message_loop_ := true, kqueue_ := 5,
                        embed_closed_ := true, embed_sem_ := 0, loop_pending := 0,
                        loop_quit_requests := 0 },
               main := MainPc.joining, poller := PollerPc.waiting (-1) }
      ∧ kevent_timeout (-1) = none
      ∧ (∀ a : Action,
          (step { obj := { is_browser_ := true, message_loop_ := true, kqueue_ := 5,
                           embed_closed_ := true, embed_sem_ := 0, loop_pending := 0,
                           loop_quit_requests := 0 },
                  main := MainPc.joining, poller := PollerPc.waiting (-1) } a).isSome = true →
          ∃ k, a = Action.kevent_returns k) := by
  refine ⟨by decide, ?_, by decide, by decide, ?_⟩
  · intro a
    cases a <;> rfl
  · intro a ha
    cases a <;> first | exact ⟨_, rfl⟩ | (simp [step] at ha)

/-- C6: in every state reached after `PrepareMessageLoop` (which sets the
semaphore to 0), at most one posted `UvRunOnce` task is waiting to run, the
semaphore count is at most 1, every `uv_sem_wait` that returned consumed the
release of a distinct completed `UvRunOnce` pass, the passes are the priming
pass and one per wakeup, and the poller can call `WakeupMainThread` only with
one more `uv_sem_wait` behind it than wakeups, no task pending and the
semaphore at 0. -/
theorem at_most_one_outstanding_wakeup (is_browser : Bool) (kq : Int) (sem0 : Nat)
    (tr : List Action) (s : State)
    (h : run (init is_browser kq sem0) (Action.PrepareMessageLoop :: tr) = some s) :
    s.obj.loop_pending ≤ 1
      ∧ s.obj.embed_sem_ ≤ 1
      ∧ wakeups (Action.PrepareMessageLoop :: tr) ≤ waits (Action.PrepareMessageLoop :: tr)
      ∧ waits (Action.PrepareMessageLoop :: tr) ≤ posts (Action.PrepareMessageLoop :: tr)
      ∧ posts (Action.PrepareMessageLoop :: tr) ≤ wakeups (Action.PrepareMessageLoop :: tr) + 1
      ∧ (∀ s1, step s Action.WakeupMainThread = some s1 →
          waits (Action.PrepareMessageLoop :: tr) = wakeups (Action.PrepareMessageLoop :: tr) + 1
            ∧ s.obj.loop_pending = 0 ∧ s.obj.embed_sem_ = 0
            ∧ s1.obj.loop_pending = 1) := by
  have hi := inv_run is_browser kq sem0 _ s h
  obtain ⟨h1, h0, h2, h3, h4, h5, h6, h7, h8, h9⟩ := hi
  have hm : s.main ≠ MainPc.constructed := by
    intro hc
    have := h0 hc
    simp at this
  have h2 := h2 hm
  refine ⟨by omega, by omega, by omega, by omega, by omega, ?_⟩
  intro s1 hs
  have hp : s.poller = PollerPc.notifying := by
    cases hq : s.poller <;> simp [step, hq] at hs
    rfl
  rw [hp] at h3
  simp only [grant_ind_notifying] at h3
  refine ⟨h3, by omega, by omega, ?_⟩
  have hpend : s.obj.loop_pending = 0 := by omega
  by_cases hml : s.obj.message_loop_ = true
  · simp [step, hp, WakeupMainThread, hml] at hs
    rw [← hs]
    simp [hpend]
  · simp [step, hp, WakeupMainThread, hml] at hs

/-- Witness of C6: after the priming pass and one poller cycle up to the end of
its `kevent` wait, the wakeup is enabled with nothing pending. -/
theorem at_most_one_outstanding_wakeup_witness :
    run (init true 5 7)
        (Action.PrepareMessageLoop ::
          [Action.RunMessageLoop, Action.uv_run_returns 1 0, Action.uv_backend_fd,
           Action.kevent_add 0, Action.test_closed, Action.uv_sem_wait,
           Action.uv_backend_timeout 50, Action.kevent_returns { r := 0, errno := 0, elapsed := 50 }])
      = some { obj := { (construct true 5 0) with message_loop_ := true },
               main := MainPc.looping, poller := PollerPc.notifying }
      ∧ (State.obj { obj := { (construct true 5 0) with message_loop_ := true },
                     main := MainPc.looping, poller := PollerPc.notifying }).loop_pending ≤ 1
      ∧ (State.obj { obj := { (construct true 5 0) with message_loop_ := true },
                     main := MainPc.looping, poller := PollerPc.notifying }).embed_sem_ ≤ 1 :=
  ⟨by decide,
   (at_most_one_outstanding_wakeup true 5 7
      [Action.RunMessageLoop, Action.uv_run_returns 1 0, Action.uv_backend_fd,
       Action.kevent_add 0, Action.test_closed, Action.uv_sem_wait,
       Action.uv_backend_timeout 50, Action.kevent_returns { r := 0, errno := 0, elapsed := 50 }]
      { obj := { (construct true 5 0) with message_loop_ := true },
        main := MainPc.looping, poller := PollerPc.notifying }
      (by decide)).1,
   (at_most_one_outstanding_wakeup true 5 7
      [Action.RunMessageLoop, Action.uv_run_returns 1 0, Action.uv_backend_fd,
       Action.kevent_add 0, Action.test_closed, Action.uv_sem_wait,
       Action.uv_backend_timeout 50, Action.kevent_returns { r := 0, errno := 0, elapsed := 50 }]
      { obj := { (construct true 5 0) with message_loop_ := true },
        main := MainPc.looping, poller := PollerPc.notifying }
      (by decide)).2.1⟩

end NodeBindingsMac
